import Mathlib

/-!
Verification of the kredit-plus credit allocation and contract issuance
engine, shallowly embedded from the Go sources.

Modelling conventions:
- monetary amounts (Go `float64`, DB `DECIMAL(15,2)`) are exact rationals;
- identifiers (`uuid.UUID`) are natural numbers, with `0` playing `uuid.Nil`;
- due dates (`time.Time`, DB `DATE`) are civil dates with Go `AddDate`
  month-shift semantics;
- the GORM store is explicit state (`Ledger`, `DB`) threaded through the
  repository and service functions; an aborted DB transaction leaves the
  state component unchanged;
- audit timestamps (`CreatedAt` / `UpdatedAt`) are omitted throughout: no
  verified property mentions them.
-/

namespace KreditPlus

/-- Credit allocation row: `CreditLimit` in internal/entity/credit_limit.go
and the `credit_limits` table. -/
structure CreditLimit where
  id : Nat
  customerID : Nat
  tenorMonth : Nat
  limitAmount : ℚ
  usedAmount : ℚ
deriving DecidableEq, Repr

/-- The `credit_limits` table contents. -/
abbrev Ledger := List CreditLimit

/-- Error conditions surfaced by the engine. Named entity errors
(`ErrInsufficientCreditLimit`, ...) and ad-hoc `fmt.Errorf` errors get one
constructor each; `wrap` is `fmt.Errorf("...: %w", err)`. -/
inductive Err where
  | recordNotFound
  | insufficientAvailable
  | cannotDeleteInUse
  | creditLimitNotFound
  | insufficientCreditLimit
  | duplicateCreditLimit
  | creditLimitInUse
  | negativeUsedAmount
  | duplicateContract
  | customerNotFound
  | customerInactive
  | assetNotFound
  | noCreditLimitForTenor
  | transactionNotFound
  | invalidStatus
  | internalNil
  | validationFailed (msgs : List String)
  | wrap (msg : String) (e : Err)
deriving DecidableEq, Repr

/-- Source: `creditLimitRepository.GetByID` (repository/credit_limit.go): `First` by
primary key, `(nil, nil)` on record-not-found. -/
def creditLimitRepository.GetByID (l : Ledger) (id : Nat) : Option CreditLimit :=
  l.find? (fun r => r.id == id)

/-- Source: `creditLimitRepository.GetByCustomerIDAndTenor`: `First` on
`customer_id = ? AND tenor_month = ?`. -/
def creditLimitRepository.GetByCustomerIDAndTenor (l : Ledger) (customerID tenorMonth : Nat) :
    Option CreditLimit :=
  l.find? (fun r => r.customerID == customerID && r.tenorMonth == tenorMonth)

/-- GORM `tx.Save(&limit)`: update the row with the same primary key. -/
def saveLimit (l : Ledger) (r : CreditLimit) : Ledger :=
  l.map (fun x => if x.id = r.id then r else x)

/-- Source: `creditLimitRepository.Create`: plain `tx.Create(limit)` insert; the
`credit_limits` migration declares no uniqueness beyond the primary key. -/
def creditLimitRepository.Create (l : Ledger) (limit : CreditLimit) : Ledger :=
  l ++ [limit]

/-- Source: `creditLimitRepository.UpdateUsedAmount` (repository/credit_limit.go
lines 125-162): lock the row, reject if `used + amount > limit`, else
`used += amount` and save.  The whole body is one DB transaction. -/
def creditLimitRepository.UpdateUsedAmount (l : Ledger) (id : Nat) (amount : ℚ) :
    Except Err Ledger :=
  match creditLimitRepository.GetByID l id with
  | none => .error (.wrap ("failed to get credit limit for update") .recordNotFound)
  | some limit =>
    if limit.usedAmount + amount > limit.limitAmount then
      .error .insufficientAvailable
    else
      .ok (saveLimit l { limit with usedAmount := limit.usedAmount + amount })

/-- Source: `creditLimitRepository.Delete`: load, reject if `used > 0`, else delete
by primary key. -/
def creditLimitRepository.Delete (l : Ledger) (id : Nat) : Except Err Ledger :=
  match creditLimitRepository.GetByID l id with
  | none => .error (.wrap ("credit limit not found") .recordNotFound)
  | some limit =>
    if limit.usedAmount > 0 then .error .cannotDeleteInUse
    else .ok (l.filter (fun x => x.id != id))

/-- Valid tenor set {1, 2, 3, 6}, the `isValidTenor` closure used by the
request validators. -/
def isValidTenor (tenor : Nat) : Bool :=
  tenor == 1 || tenor == 2 || tenor == 3 || tenor == 6

/-- Source: `CreateCreditLimitRequest` (internal/entity/credit_limit.go). -/
structure CreateCreditLimitRequest where
  customerID : Nat
  tenorMonth : Nat
  limitAmount : ℚ
deriving DecidableEq, Repr

/-- Source: `CreateCreditLimitRequest.Validate`. -/
def CreateCreditLimitRequest.Validate (r : CreateCreditLimitRequest) : List String :=
  (if r.customerID = 0 then ["customer_id is required"] else []) ++
  (if !isValidTenor r.tenorMonth then ["tenor_month must be 1, 2, 3, or 6"] else []) ++
  (if r.limitAmount ≤ 0 then ["limit_amount must be greater than 0"] else [])

/-- Source: `creditLimitService.Create`: validate, read-then-insert duplicate check
on (customerID, tenorMonth), insert with `UsedAmount = 0`.  Returns the new
ledger state and the result. -/
def creditLimitService.Create (l : Ledger) (req : CreateCreditLimitRequest) (newID : Nat) :
    Ledger × Except Err CreditLimit :=
  if req.Validate ≠ [] then (l, .error (.validationFailed req.Validate))
  else
    match creditLimitRepository.GetByCustomerIDAndTenor l req.customerID req.tenorMonth with
    | some _ => (l, .error .duplicateCreditLimit)
    | none =>
      let limit : CreditLimit := ⟨newID, req.customerID, req.tenorMonth, req.limitAmount, 0⟩
      (creditLimitRepository.Create l limit, .ok limit)

/-- Source: `creditLimitService.UpdateUsedAmount` (service, unnamed part_002 lines
157-197): `amount == 0` short-circuits to success before any lookup; then
load, lower-bound check for negative amounts, upper-bound check for
positive amounts, then delegate to the repository primitive. -/
def creditLimitService.UpdateUsedAmount (l : Ledger) (id : Nat) (amount : ℚ) :
    Ledger × Except Err Unit :=
  if amount = 0 then (l, .ok ())
  else
    match creditLimitRepository.GetByID l id with
    | none => (l, .error .creditLimitNotFound)
    | some limit =>
      if amount < 0 ∧ limit.usedAmount + amount < 0 then (l, .error .negativeUsedAmount)
      else if amount > 0 ∧ limit.usedAmount + amount > limit.limitAmount then
        (l, .error .insufficientCreditLimit)
      else
        match creditLimitRepository.UpdateUsedAmount l id amount with
        | .error e => (l, .error (.wrap ("failed to update credit limit used amount") e))
        | .ok l2 => (l2, .ok ())

/-- Source: `creditLimitService.Delete`: load, reject while in use, else delete. -/
def creditLimitService.Delete (l : Ledger) (id : Nat) : Ledger × Except Err Unit :=
  match creditLimitRepository.GetByID l id with
  | none => (l, .error .creditLimitNotFound)
  | some limit =>
    if limit.usedAmount > 0 then (l, .error .creditLimitInUse)
    else
      match creditLimitRepository.Delete l id with
      | .error e => (l, .error (.wrap ("failed to delete credit limit") e))
      | .ok l2 => (l2, .ok ())

/-- Source: `Customer` (internal/entity/customer.go); only the fields the engine
reads (`ID`, `IsActive`) are kept. -/
structure Customer where
  id : Nat
  isActive : Bool
deriving DecidableEq, Repr

/-- Source: `Asset` (internal/entity/asset.go); only the fields the engine reads
(`ID`, `Price`) are kept.  `CreateAssetRequest.Validate` requires
`Price > 0`, which justifies non-negative catalog prices. -/
structure Asset where
  id : Nat
  price : ℚ
deriving DecidableEq, Repr

/-- Civil date, standing in for the date component of Go `time.Time`. -/
structure GoDate where
  year : Int
  month : Int
  day : Int
deriving DecidableEq, Repr

def isLeapYear (y : Int) : Bool :=
  y % 4 == 0 && (y % 100 != 0 || y % 400 == 0)

def daysInMonth (y m : Int) : Int :=
  if m = 2 then (if isLeapYear y then 29 else 28)
  else if m = 4 ∨ m = 6 ∨ m = 9 ∨ m = 11 then 30
  else 31

/-- Go `t.AddDate(0, 1, 0)`: bump the month and normalize, overflowing a
day count the target month lacks into the following month (Go normalizes,
it does not clamp: Jan 31 + 1 month = Mar 2/3).  A single day-carry step is
exact for every date whose day is at most 31, which covers all dates the
generator ever feeds it. -/
def addMonth (d : GoDate) : GoDate :=
  let y := if d.month + 1 > 12 then d.year + 1 else d.year
  let m := if d.month + 1 > 12 then d.month + 1 - 12 else d.month + 1
  if d.day > daysInMonth y m then
    if m + 1 > 12 then ⟨y + 1, m + 1 - 12, d.day - daysInMonth y m⟩
    else ⟨y, m + 1, d.day - daysInMonth y m⟩
  else ⟨y, m, d.day⟩

/-- Source: `TransactionStatus` is an open string in the source (`type
TransactionStatus string`). -/
abbrev TransactionStatus := String

def TransactionStatusPending : TransactionStatus := "pending"

def TransactionStatusActive : TransactionStatus := "active"

def TransactionStatusCompleted : TransactionStatus := "completed"

/-- Source: `TransactionStatus.IsValid` (internal/entity/credit_limit.go part 2,
lines 220-228). -/
def TransactionStatus.IsValid (s : TransactionStatus) : Bool :=
  s == TransactionStatusPending || s == TransactionStatusActive ||
    s == TransactionStatusCompleted

abbrev TransactionDetailStatus := String

def TransactionDetailStatusPending : TransactionDetailStatus := "pending"

/-- Source: `TransactionDetail`: one installment schedule row
(`transaction_details` table). -/
structure TransactionDetail where
  id : Nat
  transactionID : Nat
  installmentNumber : Nat
  amount : ℚ
  dueDate : GoDate
  status : TransactionDetailStatus
deriving DecidableEq, Repr

/-- Source: `Transaction`: an issued contract.  `transactionDetail` is the GORM
has-one association `TransactionDetail *TransactionDetail` populated by
`Preload`, `none` when not hydrated. -/
structure Transaction where
  id : Nat
  customerID : Nat
  assetID : Nat
  contractNumber : String
  otrAmount : ℚ
  adminFee : ℚ
  interestAmount : ℚ
  tenorMonth : Nat
  installmentAmount : ℚ
  status : TransactionStatus
  transactionDetail : Option TransactionDetail
deriving DecidableEq, Repr

/-- The durable store the issuance engine touches: `credit_limits`,
`transactions` and `transaction_details` tables. -/
structure DB where
  creditLimits : Ledger
  transactions : List Transaction
  transactionDetails : List TransactionDetail
deriving DecidableEq, Repr

def initialDB : DB := ⟨[], [], []⟩

/-- GORM `tx.Save` on a transaction row / `Update("status", ...)`. -/
def saveTransaction (ts : List Transaction) (r : Transaction) : List Transaction :=
  ts.map (fun x => if x.id = r.id then r else x)

/-- Source: `transactionRepository.generateInstallments` (repository/transaction.go
lines 218-238): `tenorMonth` entries; the running due date starts at
`time.Now().UTC()` (here the explicit `now` argument) and is advanced by
`AddDate(0, 1, 0)` before each entry is emitted; every entry carries the
contract's flat `installmentAmount`, a fresh `uuid.New()` (here `freshIds`)
and status pending.  Entry `i` (0-based) therefore carries
1-based number `i + 1` and due date `addMonth^[i + 1] now`. -/
def transactionRepository.generateInstallments (transaction : Transaction)
    (freshIds : Nat → Nat) (now : GoDate) : List TransactionDetail :=
  (List.range transaction.tenorMonth).map (fun i =>
    { id := freshIds i
      transactionID := transaction.id
      installmentNumber := i + 1
      amount := transaction.installmentAmount
      dueDate := addMonth^[i + 1] now
      status := TransactionDetailStatusPending })

/-- Source: `transactionRepository.Create` (repository/transaction.go lines 41-86):
one DB transaction that locks the allocation row for
(customerID, tenorMonth), rejects if `used + OTRAmount > limit`, inserts
the contract row, generates and inserts the schedule rows, and saves the
allocation with `used += OTRAmount`.  An error leaves the caller's state
unchanged (rollback). -/
def transactionRepository.Create (db : DB) (transaction : Transaction)
    (freshIds : Nat → Nat) (now : GoDate) : Except Err DB :=
  match creditLimitRepository.GetByCustomerIDAndTenor db.creditLimits
      transaction.customerID transaction.tenorMonth with
  | none => .error (.wrap ("failed to get credit limit") .recordNotFound)
  | some creditLimit =>
    if creditLimit.usedAmount + transaction.otrAmount > creditLimit.limitAmount then
      .error .insufficientAvailable
    else
      let installments := transactionRepository.generateInstallments transaction freshIds now
      .ok { creditLimits :=
              saveLimit db.creditLimits
                { creditLimit with usedAmount := creditLimit.usedAmount + transaction.otrAmount }
            transactions := db.transactions ++ [transaction]
            transactionDetails := db.transactionDetails ++ installments }

/-- Source: `transactionRepository.GetByID` with `Preload("TransactionDetail")`:
the has-one association picks a single matching schedule row. -/
def transactionRepository.GetByID (db : DB) (id : Nat) : Option Transaction :=
  (db.transactions.find? (fun t => t.id == id)).map (fun t =>
    { t with transactionDetail := db.transactionDetails.find? (fun d => d.transactionID == t.id) })

/-- Source: `transactionRepository.GetByContractNumber` (sans preloads, which the
duplicate check never reads). -/
def transactionRepository.GetByContractNumber (db : DB) (contractNumber : String) :
    Option Transaction :=
  db.transactions.find? (fun t => t.contractNumber == contractNumber)

/-- Source: `transactionRepository.UpdateStatus`: load then unconditionally
`Update("status", status)`. -/
def transactionRepository.UpdateStatus (db : DB) (id : Nat) (status : TransactionStatus) :
    Except Err DB :=
  match db.transactions.find? (fun t => t.id == id) with
  | none => .error (.wrap ("failed to get transaction") .recordNotFound)
  | some t =>
    .ok { db with transactions := saveTransaction db.transactions { t with status := status } }

/-- Source: `CreateTransactionRequest` (internal/entity/credit_limit.go part 2). -/
structure CreateTransactionRequest where
  customerID : Nat
  assetID : Nat
  tenorMonth : Nat
  adminFee : ℚ
  interestRate : ℚ
  contractNumber : String
deriving DecidableEq, Repr

/-- Source: `CreateTransactionRequest.Validate`. -/
def CreateTransactionRequest.Validate (r : CreateTransactionRequest) : List String :=
  (if r.customerID = 0 then ["customer_id is required"] else []) ++
  (if r.assetID = 0 then ["asset_id is required"] else []) ++
  (if !isValidTenor r.tenorMonth then ["tenor_month must be 1, 2, 3, or 6"] else []) ++
  (if r.adminFee < 0 then ["admin_fee must not be negative"] else []) ++
  (if r.interestRate < 0 ∨ r.interestRate > 100 then
    ["interest_rate must be between 0 and 100"] else []) ++
  (if r.contractNumber = "" then ["contract_number is required"] else [])

/-- Source: `InstallmentResponse`. -/
structure InstallmentResponse where
  id : Nat
  transactionID : Nat
  installmentNumber : Nat
  amount : ℚ
  dueDate : GoDate
  status : TransactionDetailStatus
deriving DecidableEq, Repr

/-- Source: `TransactionResponse`; the `Asset` / `Customer` sub-responses and the
formatted timestamp strings are omitted (no claim reads them). -/
structure TransactionResponse where
  id : Nat
  customerID : Nat
  assetID : Nat
  contractNumber : String
  otrAmount : ℚ
  adminFee : ℚ
  interestAmount : ℚ
  tenorMonth : Nat
  installmentAmount : ℚ
  status : TransactionStatus
  installments : List InstallmentResponse
deriving DecidableEq, Repr

/-- Source: `transactionService.toResponse` (unnamed part_001 lines 295-354): a
non-nil `tx.TransactionDetail` pointer yields a one-element
`Installments` slice; nil yields none. -/
def transactionService.toResponse (tx : Transaction) : TransactionResponse :=
  { id := tx.id
    customerID := tx.customerID
    assetID := tx.assetID
    contractNumber := tx.contractNumber
    otrAmount := tx.otrAmount
    adminFee := tx.adminFee
    interestAmount := tx.interestAmount
    tenorMonth := tx.tenorMonth
    installmentAmount := tx.installmentAmount
    status := tx.status
    installments :=
      match tx.transactionDetail with
      | none => []
      | some d => [⟨d.id, d.transactionID, d.installmentNumber, d.amount, d.dueDate, d.status⟩] }

/-- Source: `transactionService.Create` (unnamed part_001 lines 38-208): validate;
gather the four pre-fetches (existing contract number, customer, asset,
allocation) and fail fast in that order; compute
`interest = price * rate * tenor / 100`, `total = price + fee + interest`,
`installment = total / tenor`; optimistic capacity pre-check; then
`transactionRepo.Create` (which itself adds `OTRAmount` to the allocation)
followed by `creditLimitRepo.UpdateUsedAmount(limit.ID, total)` as a
second, separate mutation; finally re-read and shape the response.
The state component of the result is the store after whichever mutations
committed before the first failure. -/
def transactionService.Create (customers : List Customer) (assets : List Asset)
    (db : DB) (req : CreateTransactionRequest) (newID : Nat)
    (freshIds : Nat → Nat) (now : GoDate) : DB × Except Err TransactionResponse :=
  if req.Validate ≠ [] then (db, .error (.validationFailed req.Validate))
  else
    match transactionRepository.GetByContractNumber db req.contractNumber with
    | some _ => (db, .error .duplicateContract)
    | none =>
      match customers.find? (fun c => c.id == req.customerID) with
      | none => (db, .error .customerNotFound)
      | some customer =>
        if !customer.isActive then (db, .error .customerInactive)
        else
          match assets.find? (fun a => a.id == req.assetID) with
          | none => (db, .error .assetNotFound)
          | some asset =>
            match creditLimitRepository.GetByCustomerIDAndTenor db.creditLimits
                req.customerID req.tenorMonth with
            | none => (db, .error .noCreditLimitForTenor)
            | some creditLimit =>
              let interestAmount := asset.price * req.interestRate * (req.tenorMonth : ℚ) / 100
              let totalAmount := asset.price + req.adminFee + interestAmount
              let installmentAmount := totalAmount / (req.tenorMonth : ℚ)
              if totalAmount > creditLimit.limitAmount - creditLimit.usedAmount then
                (db, .error .insufficientCreditLimit)
              else
                let transaction : Transaction :=
                  { id := newID
                    customerID := req.customerID
                    assetID := req.assetID
                    contractNumber := req.contractNumber
                    otrAmount := asset.price
                    adminFee := req.adminFee
                    interestAmount := interestAmount
                    tenorMonth := req.tenorMonth
                    installmentAmount := installmentAmount
                    status := TransactionStatusPending
                    transactionDetail := none }
                match transactionRepository.Create db transaction freshIds now with
                | .error e => (db, .error (.wrap ("failed to create transaction") e))
                | .ok db1 =>
                  match creditLimitRepository.UpdateUsedAmount db1.creditLimits
                      creditLimit.id totalAmount with
                  | .error e => (db1, .error (.wrap ("failed to update credit limit") e))
                  | .ok l2 =>
                    let db2 : DB := { db1 with creditLimits := l2 }
                    match transactionRepository.GetByID db2 transaction.id with
                    | none => (db2, .error .internalNil)
                    | some created => (db2, .ok (transactionService.toResponse created))

/-- Source: `transactionService.UpdateStatus` (unnamed part_001 lines 266-293):
reject statuses outside the enumeration, check existence, then delegate;
no transition-order check is performed. -/
def transactionService.UpdateStatus (db : DB) (id : Nat) (status : TransactionStatus) :
    DB × Except Err Unit :=
  if !TransactionStatus.IsValid status then (db, .error .invalidStatus)
  else
    match transactionRepository.GetByID db id with
    | none => (db, .error .transactionNotFound)
    | some _ =>
      match transactionRepository.UpdateStatus db id status with
      | .error e => (db, .error (.wrap ("failed to update status") e))
      | .ok db1 => (db1, .ok ())

/-- One caller-visible ledger / issuance operation, relating a store state
to the state left behind by the operation (whether it succeeded or
failed).  These are the operations named by the spec's ledger interface:
create, reserve/release (`UpdateUsedAmount`), contract issuance, delete. -/
inductive Step (customers : List Customer) (assets : List Asset) : DB → DB → Prop where
  | createLimit (db : DB) (req : CreateCreditLimitRequest) (newID : Nat) :
      Step customers assets db
        { db with creditLimits := (creditLimitService.Create db.creditLimits req newID).1 }
  | updateUsedAmount (db : DB) (id : Nat) (amount : ℚ) :
      Step customers assets db
        { db with creditLimits := (creditLimitService.UpdateUsedAmount db.creditLimits id amount).1 }
  | deleteLimit (db : DB) (id : Nat) :
      Step customers assets db
        { db with creditLimits := (creditLimitService.Delete db.creditLimits id).1 }
  | issue (db : DB) (req : CreateTransactionRequest) (newID : Nat)
      (freshIds : Nat → Nat) (now : GoDate) :
      Step customers assets db
        (transactionService.Create customers assets db req newID freshIds now).1

/-- States reachable from the empty store by ledger / issuance operations. -/
abbrev Reachable (customers : List Customer) (assets : List Asset) (db : DB) : Prop :=
  Relation.ReflTransGen (Step customers assets) initialDB db

/-- The per-allocation invariant of §8 of the spec. -/
def LimitInv (r : CreditLimit) : Prop :=
  0 ≤ r.usedAmount ∧ r.usedAmount ≤ r.limitAmount

/-- The invariant, over a whole ledger. -/
def LedgerInv (l : Ledger) : Prop := ∀ r ∈ l, LimitInv r

/-- Result projection: the error, if any. -/
def exceptErr {α : Type} : Except Err α → Option Err
  | .error e => some e
  | .ok _ => none

/-- Result projection: on success, how many installment entries the
response carries. -/
def exceptOkInstallmentCount : Except Err TransactionResponse → Option Nat
  | .ok r => some r.installments.length
  | .error _ => none

theorem validate_credit_limit_pos {req : CreateCreditLimitRequest}
    (h : req.Validate = []) : 0 < req.limitAmount := by
  by_contra hle
  push_neg at hle
  simp [CreateCreditLimitRequest.Validate, hle] at h

theorem validate_tx_adminFee {req : CreateTransactionRequest}
    (h : req.Validate = []) : 0 ≤ req.adminFee := by
  by_contra hlt
  push_neg at hlt
  simp [CreateTransactionRequest.Validate, hlt] at h

theorem validate_tx_rate {req : CreateTransactionRequest}
    (h : req.Validate = []) : 0 ≤ req.interestRate := by
  by_contra hlt
  push_neg at hlt
  simp [CreateTransactionRequest.Validate, hlt] at h

theorem saveLimit_inv {l : Ledger} {r : CreditLimit} (hl : LedgerInv l) (hr : LimitInv r) :
    LedgerInv (saveLimit l r) := by
  intro x hx
  simp only [saveLimit, List.mem_map] at hx
  obtain ⟨y, hy, hxy⟩ := hx
  split at hxy
  · exact hxy ▸ hr
  · exact hxy ▸ hl y hy

theorem creditLimitRepository.UpdateUsedAmount_ok {l : Ledger} {id : Nat} {amount : ℚ}
    {l2 : Ledger} (h : creditLimitRepository.UpdateUsedAmount l id amount = .ok l2) :
    ∃ f, creditLimitRepository.GetByID l id = some f ∧
      f.usedAmount + amount ≤ f.limitAmount ∧
      l2 = saveLimit l { f with usedAmount := f.usedAmount + amount } := by
  unfold creditLimitRepository.UpdateUsedAmount at h
  split at h
  · exact absurd h (by simp)
  · rename_i f hf
    split at h
    · exact absurd h (by simp)
    · rename_i hcap
      exact ⟨f, hf, not_lt.mp hcap, (Except.ok.inj h).symm⟩

/-- C10: calling the service-level `UpdateUsedAmount` with amount exactly 0
returns success immediately without touching or even consulting the store:
the result is `ok` and the ledger is returned unchanged, for every ledger,
including ledgers in which the given allocation id does not exist at all. -/
theorem C10_zero_amount_short_circuit (l : Ledger) (id : Nat) :
    creditLimitService.UpdateUsedAmount l id 0 = (l, .ok ()) := by
  simp [creditLimitService.UpdateUsedAmount]

/-- C8: a release (service `UpdateUsedAmount` with negative amount) on an
existing allocation fails with the invalid-amount error and leaves the
ledger unchanged when the decrement would drive the used amount below
zero; otherwise it decrements the used amount by exactly the given
(negative) amount.  The `usedAmount ≤ limitAmount` hypothesis is the
ledger invariant (claim C3). -/
theorem C8_release_bounds (l : Ledger) (id : Nat) (amount : ℚ) (f : CreditLimit)
    (hf : creditLimitRepository.GetByID l id = some f) (hneg : amount < 0)
    (hinv : f.usedAmount ≤ f.limitAmount) :
    (f.usedAmount + amount < 0 →
      creditLimitService.UpdateUsedAmount l id amount = (l, .error .negativeUsedAmount)) ∧
    (0 ≤ f.usedAmount + amount →
      creditLimitService.UpdateUsedAmount l id amount =
        (saveLimit l { f with usedAmount := f.usedAmount + amount }, .ok ())) := by
  have hne : amount ≠ 0 := ne_of_lt hneg
  constructor
  · intro hlt
    simp [creditLimitService.UpdateUsedAmount, hne, hf, hneg, hlt]
  · intro hge
    have h1 : ¬ (amount < 0 ∧ f.usedAmount + amount < 0) := by
      rintro ⟨-, hc⟩
      exact absurd hc (not_lt.mpr hge)
    have h2 : ¬ (amount > 0 ∧ f.usedAmount + amount > f.limitAmount) := by
      rintro ⟨hc, -⟩
      exact absurd hneg (not_lt.mpr (le_of_lt hc))
    have h3 : ¬ (f.usedAmount + amount > f.limitAmount) := by
      apply not_lt.mpr
      calc f.usedAmount + amount ≤ f.usedAmount + 0 := by linarith
      _ ≤ f.limitAmount := by simpa using hinv
    simp [creditLimitService.UpdateUsedAmount, creditLimitRepository.UpdateUsedAmount,
      hne, hf, h1, h2, h3]

/-- Witness for C8: allocation ⟨10, 1, 1, 100, 50⟩, release of 20 (amount
-20) succeeds and leaves used = 30. -/
theorem C8_release_bounds_witness :
    creditLimitService.UpdateUsedAmount [⟨10, 1, 1, 100, 50⟩] 10 (-20) =
      (saveLimit [⟨10, 1, 1, 100, 50⟩] ⟨10, 1, 1, 100, 30⟩, .ok ()) := by
  have h := (C8_release_bounds [⟨10, 1, 1, 100, 50⟩] 10 (-20) ⟨10, 1, 1, 100, 50⟩
    (by decide) (by norm_num) (by norm_num)).2 (by norm_num)
  exact ((by norm_num : (50 : ℚ) + -20 = 30) ▸ h)

/-- The observable content of a schedule entry named by claims C2 and C5:
(installment number, amount, due date, status). -/
def installmentTuple (d : TransactionDetail) : Nat × ℚ × GoDate × TransactionDetailStatus :=
  (d.installmentNumber, d.amount, d.dueDate, d.status)

/-- A concrete contract snapshot used to exercise the schedule generator. -/
def txC2 : Transaction :=
  ⟨1, 1, 1, "AGR-C2", 100, 0, 0, 1, 100, TransactionStatusPending, none⟩

/-- C2 counterexample: the generator is not a function of the contract
snapshot alone.  The running due date starts from `time.Now()` at the
moment of invocation, so the same contract generated at two different
instants yields different (number, amount, due date, status) sequences. -/
theorem C2_counterexample :
    (transactionRepository.generateInstallments txC2 (fun i => i) ⟨2025, 1, 15⟩).map
        installmentTuple ≠
      (transactionRepository.generateInstallments txC2 (fun i => i) ⟨2025, 3, 15⟩).map
        installmentTuple := by
  decide

/-- C2 amended: the generator is deterministic in the pair (contract
snapshot, generation instant): for a fixed contract and a fixed clock
reading, the produced (installment number, amount, due date, status)
sequence is uniquely determined — in particular it does not depend on the
fresh-id (uuid) supply. -/
theorem C2_amended_deterministic (f g : Nat → Nat) (tx : Transaction) (now : GoDate) :
    (transactionRepository.generateInstallments tx f now).map installmentTuple =
      (transactionRepository.generateInstallments tx g now).map installmentTuple := by
  simp only [transactionRepository.generateInstallments, List.map_map]
  rfl

/-- C5: for every contract and generation instant the schedule has exactly
`tenorMonth` entries, numbered 1..tenor in order, each carrying the
contract's flat installment amount and status pending, with entry i due
exactly i calendar-month shifts after the generation instant; consecutive
due dates differ by exactly one `AddDate(0,1,0)` month shift. -/
theorem C5_schedule_shape (freshIds : Nat → Nat) (transaction : Transaction) (now : GoDate) :
    (transactionRepository.generateInstallments transaction freshIds now).length =
        transaction.tenorMonth ∧
      (transactionRepository.generateInstallments transaction freshIds now).map
          TransactionDetail.installmentNumber = List.range' 1 transaction.tenorMonth ∧
      (transactionRepository.generateInstallments transaction freshIds now).map
          TransactionDetail.amount =
        List.replicate transaction.tenorMonth transaction.installmentAmount ∧
      (transactionRepository.generateInstallments transaction freshIds now).map
          TransactionDetail.status =
        List.replicate transaction.tenorMonth TransactionDetailStatusPending ∧
      (transactionRepository.generateInstallments transaction freshIds now).map
          TransactionDetail.dueDate =
        (List.range transaction.tenorMonth).map (fun i => addMonth^[i + 1] now) ∧
      List.Chain' (fun a b => b.dueDate = addMonth a.dueDate)
        (transactionRepository.generateInstallments transaction freshIds now) := by
  refine ⟨?_, ?_, ?_, ?_, ?_, ?_⟩
  · simp [transactionRepository.generateInstallments]
  · simp only [transactionRepository.generateInstallments, List.map_map, Function.comp_def]
    rw [List.range'_eq_map_range]
    exact List.map_congr_left (fun i _ => Nat.add_comm i 1)
  · simp only [transactionRepository.generateInstallments, List.map_map, Function.comp_def]
    rw [List.map_const', List.length_range]
  · simp only [transactionRepository.generateInstallments, List.map_map, Function.comp_def]
    rw [List.map_const', List.length_range]
  · simp only [transactionRepository.generateInstallments, List.map_map, Function.comp_def]
  · simp only [transactionRepository.generateInstallments, List.chain'_map]
    cases h : transaction.tenorMonth with
    | zero => simp
    | succ m =>
      rw [List.chain'_range_succ]
      intro i _
      exact Function.iterate_succ_apply' addMonth (i + 1) now

/-- Scenario A store: one allocation, duration 1, granted 100000,
committed 0. -/
def scenarioAdb : DB := ⟨[⟨10, 1, 1, 100000, 0⟩], [], []⟩

/-- Scenario A request: asset price 90000 (asset id 1), adminFee 5000,
interest rate 2 percent, duration 1. -/
def scenarioAreq : CreateTransactionRequest := ⟨1, 1, 1, 5000, 2, "AGR-001"⟩

/-- C1, evaluated at Scenario A: the issuance flow mutates the committed
amount twice — `transactionRepository.Create` adds `OTRAmount` (the asset
price, 90000) inside the issuance transaction, then the service separately
calls `creditLimitRepository.UpdateUsedAmount` with `totalAmount` (96800).
At Scenario A the second mutation fails its capacity check
(90000 + 96800 > 100000), so issuance returns an error, the allocation is
left at committed = 90000 (neither 0 nor the claimed 96800), and an orphan
contract row persists. -/
theorem C1_scenarioA_double_increment :
    exceptErr (transactionService.Create [⟨1, true⟩] [⟨1, 90000⟩] scenarioAdb scenarioAreq
          77 (fun i => 100 + i) ⟨2025, 1, 15⟩).2 =
        some (.wrap ("failed to update credit limit") .insufficientAvailable) ∧
      (transactionService.Create [⟨1, true⟩] [⟨1, 90000⟩] scenarioAdb scenarioAreq
          77 (fun i => 100 + i) ⟨2025, 1, 15⟩).1.creditLimits =
        [⟨10, 1, 1, 100000, 90000⟩] ∧
      (transactionService.Create [⟨1, true⟩] [⟨1, 90000⟩] scenarioAdb scenarioAreq
          77 (fun i => 100 + i) ⟨2025, 1, 15⟩).1.transactions.length = 1 := by
  norm_num [transactionService.Create, scenarioAdb, scenarioAreq,
    CreateTransactionRequest.Validate, isValidTenor,
    transactionRepository.GetByContractNumber, transactionRepository.Create,
    transactionRepository.GetByID, transactionRepository.generateInstallments,
    creditLimitRepository.GetByCustomerIDAndTenor, creditLimitRepository.GetByID,
    creditLimitRepository.UpdateUsedAmount, saveLimit, transactionService.toResponse,
    exceptErr, List.find?, TransactionStatusPending, TransactionDetailStatusPending]
  simp [List.range_succ]

/-- Scenario D style store for C7: one allocation, duration 6, granted
1000, committed 0. -/
def scenarioDdb : DB := ⟨[⟨20, 1, 6, 1000, 0⟩], [], []⟩

/-- C7 request: duration 6, asset price 100, no fee, zero rate, so the
whole flow (including the doubled ledger mutation) succeeds. -/
def scenarioDreq : CreateTransactionRequest := ⟨1, 2, 6, 0, 0, "AGR-006"⟩

/-- C7, evaluated on a successful duration-6 issuance: six schedule rows
are generated and persisted, but the response built by
`transactionService.toResponse` carries exactly one installment entry,
because `Transaction.TransactionDetail` is a has-one pointer and
`toResponse` wraps it in a one-element slice. -/
theorem C7_response_single_installment :
    exceptOkInstallmentCount (transactionService.Create [⟨1, true⟩] [⟨2, 100⟩] scenarioDdb
          scenarioDreq 88 (fun i => 200 + i) ⟨2025, 1, 15⟩).2 = some 1 ∧
      (transactionService.Create [⟨1, true⟩] [⟨2, 100⟩] scenarioDdb scenarioDreq
          88 (fun i => 200 + i) ⟨2025, 1, 15⟩).1.transactionDetails.length = 6 := by
  norm_num [transactionService.Create, scenarioDdb, scenarioDreq,
    CreateTransactionRequest.Validate, isValidTenor,
    transactionRepository.GetByContractNumber, transactionRepository.Create,
    transactionRepository.GetByID, transactionRepository.generateInstallments,
    creditLimitRepository.GetByCustomerIDAndTenor, creditLimitRepository.GetByID,
    creditLimitRepository.UpdateUsedAmount, saveLimit, transactionService.toResponse,
    exceptOkInstallmentCount, List.find?, TransactionStatusPending,
    TransactionDetailStatusPending]
  simp [List.range_succ]

/-- C4: an issuance request that reaches the capacity pre-check with
`totalAmount` exceeding the allocation's remaining capacity fails with the
typed `ErrInsufficientCreditLimit` and leaves the store completely
unchanged: no contract row, no schedule rows, no allocation mutation. -/
theorem C4_insufficient_capacity_rejected (customers : List Customer) (assets : List Asset)
    (db : DB) (req : CreateTransactionRequest) (newID : Nat) (freshIds : Nat → Nat)
    (now : GoDate) (customer : Customer) (asset : Asset) (creditLimit : CreditLimit)
    (hval : req.Validate = [])
    (hdup : transactionRepository.GetByContractNumber db req.contractNumber = none)
    (hcust : customers.find? (fun c => c.id == req.customerID) = some customer)
    (hact : customer.isActive = true)
    (hasset : assets.find? (fun a => a.id == req.assetID) = some asset)
    (hlimit : creditLimitRepository.GetByCustomerIDAndTenor db.creditLimits
      req.customerID req.tenorMonth = some creditLimit)
    (hcap : asset.price + req.adminFee + asset.price * req.interestRate * (req.tenorMonth : ℚ) / 100 >
      creditLimit.limitAmount - creditLimit.usedAmount) :
    transactionService.Create customers assets db req newID freshIds now =
      (db, .error .insufficientCreditLimit) := by
  simp [transactionService.Create, hval, hdup, hcust, hact, hasset, hlimit, hcap]

/-- Scenario B store: the Scenario A allocation now committed at 96800. -/
def scenarioBdb : DB := ⟨[⟨10, 1, 1, 100000, 96800⟩], [], []⟩

/-- Scenario B request: a second issuance needing total = 5000 (asset
price 5000, no fee, zero rate, duration 1). -/
def scenarioBreq : CreateTransactionRequest := ⟨1, 2, 1, 0, 0, "AGR-002"⟩

/-- Witness for C4 at Scenario B: 96800 + 5000 > 100000, so the issuance
fails with `ErrInsufficientCreditLimit` and the store is unchanged. -/
theorem C4_insufficient_capacity_rejected_witness :
    transactionService.Create [⟨1, true⟩] [⟨2, 5000⟩] scenarioBdb scenarioBreq
        99 (fun i => i) ⟨2025, 1, 15⟩ = (scenarioBdb, .error .insufficientCreditLimit) :=
  C4_insufficient_capacity_rejected [⟨1, true⟩] [⟨2, 5000⟩] scenarioBdb scenarioBreq
    99 (fun i => i) ⟨2025, 1, 15⟩ ⟨1, true⟩ ⟨2, 5000⟩ ⟨10, 1, 1, 100000, 96800⟩
    (by decide) (by decide) (by decide) (by decide) (by decide) (by decide)
    (by norm_num [scenarioBreq])

/-- Constraints the `credit_limits` migration (unnamed part_000,
000003_create_credit_limits_table.up.sql) actually declares for its rows:
PRIMARY KEY (id) and FOREIGN KEY (customer_id) REFERENCES customers(id).
The only additional index, `idx_credit_limits_customer_id`, is non-unique
and on customer_id alone. -/
def creditLimitsTableConstraints (customerIds : List Nat) (rows : Ledger) : Prop :=
  List.Pairwise (fun a b => a.id ≠ b.id) rows ∧ ∀ r ∈ rows, r.customerID ∈ customerIds

/-- Modelled from the spec: "allocation rows keyed by (customerID,
duration) with a uniqueness constraint on that pair" — at most one row per
(customerID, tenorMonth). -/
def pairUniqueness (rows : Ledger) : Prop :=
  List.Pairwise (fun a b => ¬(a.customerID = b.customerID ∧ a.tenorMonth = b.tenorMonth)) rows

/-- C6 counterexample: the persisted store does not enforce uniqueness of
(customerID, duration).  A two-row table sharing (customerID = 1,
tenorMonth = 1) under distinct primary keys satisfies every constraint the
migration declares while violating the claimed pair uniqueness. -/
theorem C6_counterexample :
    creditLimitsTableConstraints [1] [⟨1, 1, 1, 100000, 0⟩, ⟨2, 1, 1, 200000, 0⟩] ∧
      ¬ pairUniqueness [⟨1, 1, 1, 100000, 0⟩, ⟨2, 1, 1, 200000, 0⟩] := by
  unfold creditLimitsTableConstraints pairUniqueness
  exact ⟨by decide, by decide⟩

/-- C6 amended: the duplicate-allocation rejection exists only at the
service layer — `creditLimitService.Create` fails with the
duplicate-allocation error whenever an allocation for (customerID,
duration) already exists, leaving the ledger unchanged. -/
theorem C6_amended_service_duplicate_check (l : Ledger) (req : CreateCreditLimitRequest)
    (newID : Nat) (f : CreditLimit) (hval : req.Validate = [])
    (hdup : creditLimitRepository.GetByCustomerIDAndTenor l req.customerID
      req.tenorMonth = some f) :
    creditLimitService.Create l req newID = (l, .error .duplicateCreditLimit) := by
  simp [creditLimitService.Create, hval, hdup]

/-- Witness for C6's amended claim: creating a second allocation for
(customer 1, duration 1) is rejected. -/
theorem C6_amended_service_duplicate_check_witness :
    creditLimitService.Create [⟨1, 1, 1, 100000, 0⟩] ⟨1, 1, 50000⟩ 2 =
      ([⟨1, 1, 1, 100000, 0⟩], .error .duplicateCreditLimit) :=
  C6_amended_service_duplicate_check [⟨1, 1, 1, 100000, 0⟩] ⟨1, 1, 50000⟩ 2
    ⟨1, 1, 1, 100000, 0⟩ (by decide) (by decide)

/-- A store holding one completed contract, to exercise `UpdateStatus`. -/
def dbC9 : DB :=
  ⟨[], [⟨5, 1, 1, "AGR-C9", 100, 0, 0, 1, 100, TransactionStatusCompleted, none⟩], []⟩

/-- C9 counterexample: accepted status updates do not only advance along
pending → active → completed.  Updating a completed contract back to
pending succeeds and persists the regression. -/
theorem C9_counterexample :
    exceptErr (transactionService.UpdateStatus dbC9 5 TransactionStatusPending).2 = none ∧
      (transactionService.UpdateStatus dbC9 5 TransactionStatusPending).1.transactions.map
          Transaction.status = [TransactionStatusPending] ∧
      dbC9.transactions.map Transaction.status = [TransactionStatusCompleted] := by
  decide

/-- C9 amended: `UpdateStatus` validates only membership in the status
enumeration: a status outside {pending, active, completed} is rejected
with the invalid-status error and the store is unchanged, while any status
inside the enumeration is written to an existing contract unconditionally,
with no transition-order constraint. -/
theorem C9_amended_membership_validation (db : DB) (id : Nat) (status : TransactionStatus) :
    (TransactionStatus.IsValid status = false →
      transactionService.UpdateStatus db id status = (db, .error .invalidStatus)) ∧
    (∀ t, TransactionStatus.IsValid status = true →
      db.transactions.find? (fun x => x.id == id) = some t →
      transactionService.UpdateStatus db id status =
        ({ db with transactions := saveTransaction db.transactions { t with status := status } },
          .ok ())) := by
  constructor
  · intro h
    simp [transactionService.UpdateStatus, h]
  · intro t hv hf
    simp [transactionService.UpdateStatus, transactionRepository.GetByID,
      transactionRepository.UpdateStatus, hv, hf]

/-- Witness for C9's amended claim: activating the contract writes status
active; updating with a status outside the enumeration is rejected. -/
theorem C9_amended_membership_validation_witness :
    transactionService.UpdateStatus dbC9 5 ("cancelled") = (dbC9, .error .invalidStatus) :=
  (C9_amended_membership_validation dbC9 5 ("cancelled")).1 (by decide)

theorem mem_of_GetByID {l : Ledger} {id : Nat} {f : CreditLimit}
    (h : creditLimitRepository.GetByID l id = some f) : f ∈ l :=
  List.mem_of_find?_eq_some h

theorem mem_of_GetByCustomerIDAndTenor {l : Ledger} {c t : Nat} {f : CreditLimit}
    (h : creditLimitRepository.GetByCustomerIDAndTenor l c t = some f) : f ∈ l :=
  List.mem_of_find?_eq_some h

theorem creditLimitService.Create_ledger_inv (l : Ledger) (req : CreateCreditLimitRequest)
    (newID : Nat) (h : LedgerInv l) :
    LedgerInv (creditLimitService.Create l req newID).1 := by
  unfold creditLimitService.Create
  split
  · exact h
  · rename_i hval
    split
    · exact h
    · intro x hx
      simp only [creditLimitRepository.Create] at hx
      rcases List.mem_append.mp hx with hx | hx
      · exact h x hx
      · have hx' : x = ⟨newID, req.customerID, req.tenorMonth, req.limitAmount, 0⟩ := by
          simpa using hx
        subst hx'
        have hpos : 0 < req.limitAmount := validate_credit_limit_pos (by simpa using hval)
        exact ⟨le_refl 0, le_of_lt hpos⟩

theorem creditLimitService.UpdateUsedAmount_inv (l : Ledger) (id : Nat) (amount : ℚ)
    (h : LedgerInv l) :
    LedgerInv (creditLimitService.UpdateUsedAmount l id amount).1 := by
  unfold creditLimitService.UpdateUsedAmount
  split
  · exact h
  · rename_i hne
    split
    · exact h
    · rename_i f hf
      split
      · exact h
      · split
        · exact h
        · rename_i hnotneg hnotpos
          split
          · exact h
          · rename_i l2 hok
            obtain ⟨g, hg, hle, rfl⟩ := creditLimitRepository.UpdateUsedAmount_ok hok
            have hgf : g = f := by
              rw [hf] at hg
              exact (Option.some.inj hg).symm
            subst hgf
            apply saveLimit_inv h
            refine ⟨?_, hle⟩
            show 0 ≤ g.usedAmount + amount
            rcases lt_trichotomy amount 0 with hlt | heq | hgt
            · by_contra hneg
              push_neg at hneg
              exact hnotneg ⟨hlt, hneg⟩
            · exact absurd heq hne
            · have h0 : 0 ≤ g.usedAmount := (h g (mem_of_GetByID hg)).1
              linarith

theorem creditLimitRepository.Delete_ok {l : Ledger} {id : Nat} {l2 : Ledger}
    (h : creditLimitRepository.Delete l id = .ok l2) :
    l2 = l.filter (fun x => x.id != id) := by
  unfold creditLimitRepository.Delete at h
  split at h
  · exact absurd h (by simp)
  · split at h
    · exact absurd h (by simp)
    · exact (Except.ok.inj h).symm

theorem creditLimitService.Delete_inv (l : Ledger) (id : Nat) (h : LedgerInv l) :
    LedgerInv (creditLimitService.Delete l id).1 := by
  unfold creditLimitService.Delete
  split
  · exact h
  · split
    · exact h
    · split
      · exact h
      · rename_i l2 hok
        rw [creditLimitRepository.Delete_ok hok]
        intro x hx
        exact h x (List.mem_of_mem_filter hx)

theorem transactionRepository.Create_ok {db : DB} {trx : Transaction}
    {freshIds : Nat → Nat} {now : GoDate} {db1 : DB}
    (h : transactionRepository.Create db trx freshIds now = .ok db1) :
    ∃ cl, creditLimitRepository.GetByCustomerIDAndTenor db.creditLimits
        trx.customerID trx.tenorMonth = some cl ∧
      cl.usedAmount + trx.otrAmount ≤ cl.limitAmount ∧
      db1.creditLimits =
        saveLimit db.creditLimits { cl with usedAmount := cl.usedAmount + trx.otrAmount } := by
  unfold transactionRepository.Create at h
  split at h
  · exact absurd h (by simp)
  · rename_i cl hcl
    split at h
    · exact absurd h (by simp)
    · rename_i hcap
      refine ⟨cl, hcl, not_lt.mp hcap, ?_⟩
      rw [← Except.ok.inj h]

theorem transactionService.Create_db_inv (customers : List Customer) (assets : List Asset)
    (db : DB) (req : CreateTransactionRequest) (newID : Nat) (freshIds : Nat → Nat)
    (now : GoDate) (hassets : ∀ a ∈ assets, 0 ≤ a.price) (h : LedgerInv db.creditLimits) :
    LedgerInv (transactionService.Create customers assets db req newID freshIds now).1.creditLimits := by
  unfold transactionService.Create
  split
  · exact h
  · rename_i hval
    split
    · exact h
    · split
      · exact h
      · rename_i customer hcust
        split
        · exact h
        · split
          · exact h
          · rename_i asset hasset
            split
            · exact h
            · rename_i creditLimit hcl
              dsimp only
              split
              · exact h
              · have hvalnil : req.Validate = [] := by simpa using hval
                have hprice : 0 ≤ asset.price :=
                  hassets asset (List.mem_of_find?_eq_some hasset)
                have hfee : 0 ≤ req.adminFee := validate_tx_adminFee hvalnil
                have hrate : 0 ≤ req.interestRate := validate_tx_rate hvalnil
                have htotal : 0 ≤ asset.price + req.adminFee +
                    asset.price * req.interestRate * (req.tenorMonth : ℚ) / 100 := by
                  have hcast : (0 : ℚ) ≤ (req.tenorMonth : ℚ) := Nat.cast_nonneg _
                  have hint : 0 ≤ asset.price * req.interestRate * (req.tenorMonth : ℚ) / 100 := by
                    apply div_nonneg _ (by norm_num)
                    exact mul_nonneg (mul_nonneg hprice hrate) hcast
                  linarith
                split
                · exact h
                · rename_i db1 hok
                  obtain ⟨cl, hgcl, hle, hdb1⟩ := transactionRepository.Create_ok hok
                  have hinv1 : LedgerInv db1.creditLimits := by
                    rw [hdb1]
                    apply saveLimit_inv h
                    refine ⟨?_, hle⟩
                    have h0 : 0 ≤ cl.usedAmount :=
                      (h cl (mem_of_GetByCustomerIDAndTenor hgcl)).1
                    simpa using add_nonneg h0 hprice
                  split
                  · exact hinv1
                  · rename_i l2 hok2
                    obtain ⟨f2, hf2, hle2, rfl⟩ := creditLimitRepository.UpdateUsedAmount_ok hok2
                    have hinv2 : LedgerInv (saveLimit db1.creditLimits
                        { f2 with usedAmount := f2.usedAmount + (asset.price + req.adminFee +
                          asset.price * req.interestRate * (req.tenorMonth : ℚ) / 100) }) := by
                      apply saveLimit_inv hinv1
                      refine ⟨?_, hle2⟩
                      have h0 : 0 ≤ f2.usedAmount := (hinv1 f2 (mem_of_GetByID hf2)).1
                      simpa using add_nonneg h0 htotal
                    split
                    · exact hinv2
                    · exact hinv2

/-- C3: starting from the empty store, every state reachable through the
caller-visible ledger and issuance operations (allocation create,
reserve/release via `UpdateUsedAmount` with positive or negative amounts,
contract issuance, allocation delete) keeps every allocation within
`0 ≤ usedAmount ≤ limitAmount`.  The asset-price hypothesis is what the
asset catalog guarantees (`CreateAssetRequest.Validate` demands
`Price > 0`). -/
theorem C3_used_amount_invariant (customers : List Customer) (assets : List Asset)
    (hassets : ∀ a ∈ assets, 0 ≤ a.price) (db : DB)
    (hreach : Reachable customers assets db) : LedgerInv db.creditLimits := by
  induction hreach with
  | refl => intro r hr; cases hr
  | tail _ hstep ih =>
    cases hstep with
    | createLimit req newID => exact creditLimitService.Create_ledger_inv _ req newID ih
    | updateUsedAmount id amount => exact creditLimitService.UpdateUsedAmount_inv _ id amount ih
    | deleteLimit id => exact creditLimitService.Delete_inv _ id ih
    | issue req newID freshIds now =>
      exact transactionService.Create_db_inv customers assets _ req newID freshIds now hassets ih

/-- Witness for C3: the invariant holds in the state reached by creating
one allocation (customer 1, duration 1, granted 100000) from the empty
store. -/
theorem C3_used_amount_invariant_witness :
    LedgerInv (DB.mk (creditLimitService.Create initialDB.creditLimits ⟨1, 1, 100000⟩ 10).1
      initialDB.transactions initialDB.transactionDetails).creditLimits :=
  C3_used_amount_invariant [⟨1, true⟩] [⟨1, 90000⟩] (by decide) _
    (Relation.ReflTransGen.single (Step.createLimit initialDB ⟨1, 1, 100000⟩ 10))

end KreditPlus
